import Mathlib

/-!
# Verification of the ETL-PySpark pipeline (`etl_script.py`, `generate_user_data.py`)

A shallow embedding of the two scripts into Lean.

Modelling conventions, mirroring the PySpark/Python source:

* A CSV input file is modelled as `Option (List (List String))`: `none` is an
  unreadable file, `some []` an empty file (Spark raises for an empty CSV read
  with `header=True`), and `some (hdr :: data)` a readable file whose first
  line is the header.  CSV field splitting itself is upstream of the script.
* A Spark `DataFrame` is a header (column names) plus rows of `Value` cells.
  `spark.read.csv(..., header=True, inferSchema=False)` yields string cells;
  missing cells in a row are `null` and extra cells are dropped
  (PERMISSIVE parse mode), modelled by `normalizeRow`.
* Spark SQL non-ANSI semantics (the default): `cast("int")` on a malformed
  string yields NULL instead of raising; `rlike` on NULL is NULL, which a
  `filter` treats as "drop"; `regexp_extract` returns `""` when the regex
  does not match and NULL on NULL input.
* `to_date(from_unixtime(col))` is modelled at session timezone UTC (the
  setting the design's scenarios assume): epoch seconds are floor-divided by
  86400 and the day count converted to a civil date.
* Exceptions are `Except` values; the orchestrator (`etl_pipeline`) and the
  `__main__` block are modelled as functions that also record which stages
  ran (`loadInvoked`), whether `spark.stop()` was reached (`sparkStopped`)
  and the process exit code.
-/

namespace ETL

/-- A Spark SQL cell value as it occurs in this pipeline: a string, an
integer, a calendar date (year, month, day), or NULL. -/
inductive Value where
  | str : String → Value
  | int : Int → Value
  | date : Int → Int → Int → Value
  | null : Value
deriving DecidableEq, Repr

/-- A Spark DataFrame: column names plus rows of cells. -/
structure DataFrame where
  header : List String
  rows : List (List Value)
deriving DecidableEq, Repr

/-- The error taxonomy of the pipeline: extraction failure
(`spark.read.csv` raising), transformation failure (`AnalysisException`
during `transform_data`), load failure (JDBC write raising). -/
inductive EtlError where
  | extractionError
  | transformationError
  | loadError
deriving DecidableEq, Repr

/-! ## The email shape regex `^[^@]+@[^@]+\.[^@]+$` (the `rlike` filter) -/

/-- Matcher for the anchored Java regex `^[^@]+@[^@]+\.[^@]+$` used in
`transform_data`'s `rlike` filter: a nonempty run of non-`@` characters, a
single `@`, then a nonempty `@`-free tail that contains a `.` preceded and
followed by at least one further non-`@` character. -/
def matchesEmailRegex (s : List Char) : Bool :=
  let a := s.takeWhile (fun c => c != '@')
  match s.dropWhile (fun c => c != '@') with
  | [] => false
  | _ :: b => (!a.isEmpty) && b.all (fun c => c != '@') && ((b.drop 1).dropLast.contains '.')

/-- `col("email").rlike(regex)` as used by `filter`: true on a matching
string; NULL input gives NULL, which `filter` drops, hence `false`. -/
def valueRlike (v : Value) : Bool :=
  match v with
  | .str s => matchesEmailRegex s.toList
  | _ => false

/-! ## The domain extraction regex `@([A-Za-z0-9.-]+)` (`regexp_extract`, group 1) -/

/-- The character class `[A-Za-z0-9.-]` of the domain-extraction pattern. -/
def isDomainChar (c : Char) : Bool :=
  c.isAlphanum || c == '.' || c == '-'

/-- Java-regex `find` semantics for `@([A-Za-z0-9.-]+)`: scan left to right
for an `@` immediately followed by at least one class character; capture the
maximal run of class characters after it; no match yields the empty list
(Spark's `regexp_extract` returns `""` when the pattern does not match). -/
def regexpExtractDomain : List Char → List Char
  | [] => []
  | c :: rest =>
    if c = '@' then
      match rest with
      | [] => []
      | d :: rest2 =>
        if isDomainChar d then d :: rest2.takeWhile isDomainChar
        else regexpExtractDomain rest
    else regexpExtractDomain rest

/-- `regexp_extract(col("email"), pattern, 1)` as a `Value` operation:
NULL in, NULL out; otherwise the (possibly empty) captured group. -/
def domainValue (v : Value) : Value :=
  match v with
  | .str s => .str (String.mk (regexpExtractDomain s.toList))
  | _ => .null

/-! ## Spark string-to-integral casts (non-ANSI: NULL on failure) -/

/-- Whitespace trimmed by Spark's string-to-number casts. -/
def isSpaceChar (c : Char) : Bool :=
  c == ' ' || c == '\t' || c == '\n' || c == '\r'

/-- Trim leading and trailing whitespace from a character list. -/
def trimChars (cs : List Char) : List Char :=
  ((cs.dropWhile isSpaceChar).reverse.dropWhile isSpaceChar).reverse

/-- Parse a nonempty all-digit character list as a natural number. -/
def parseNatDigits (cs : List Char) : Option Nat :=
  if cs.isEmpty then none
  else if cs.all Char.isDigit then
    some (cs.foldl (fun a c => a * 10 + (c.toNat - 48)) 0)
  else none

/-- Spark non-ANSI cast of a string to an integral type with inclusive
bounds `lo`/`hi`: trim whitespace, accept an optional sign followed by
decimal digits, and yield `none` (SQL NULL) on any malformed input or
out-of-range value. -/
def castStringToIntegral (lo hi : Int) (s : String) : Option Int :=
  let signed : Int → Option Int := fun i =>
    if lo ≤ i ∧ i ≤ hi then some i else none
  match trimChars s.toList with
  | '-' :: rest => (parseNatDigits rest).bind fun n => signed (-(n : Int))
  | '+' :: rest => (parseNatDigits rest).bind fun n => signed (n : Int)
  | cs => (parseNatDigits cs).bind fun n => signed (n : Int)

/-- `cast("int")`: 32-bit signed bounds. -/
def castStringToInt (s : String) : Option Int :=
  castStringToIntegral (-(2 ^ 31)) (2 ^ 31 - 1) s

/-- The implicit string-to-bigint cast inserted for `from_unixtime`'s
argument: 64-bit signed bounds. -/
def castStringToLong (s : String) : Option Int :=
  castStringToIntegral (-(2 ^ 63)) (2 ^ 63 - 1) s

/-- `col("user_id").cast("int")` on a cell: strings are parsed (NULL on
failure), NULL stays NULL. -/
def castIntValue (v : Value) : Value :=
  match v with
  | .str s =>
    match castStringToInt s with
    | some i => .int i
    | none => .null
  | .int i => .int i
  | _ => .null

/-! ## `to_date(from_unixtime(signup_date))` at session timezone UTC -/

/-- Convert a count of days since 1970-01-01 to a proleptic Gregorian civil
date (year, month, day); the standard era-based algorithm. -/
def civilFromDays (z0 : Int) : Int × Int × Int :=
  let z := z0 + 719468
  let era := Int.fdiv z 146097
  let doe := z - era * 146097
  let yoe := (doe - doe / 1460 + doe / 36524 - doe / 146096) / 365
  let y := yoe + era * 400
  let doy := doe - (365 * yoe + yoe / 4 - yoe / 100)
  let mp := (5 * doy + 2) / 153
  let d := doy - (153 * mp + 2) / 5 + 1
  let m := mp + (if mp < 10 then 3 else -9)
  (y + (if m ≤ 2 then 1 else 0), m, d)

/-- `to_date(from_unixtime(v))` on a cell: cast the string to epoch seconds
(NULL on failure), floor-divide by 86400 and convert the day count to a
civil date; time of day is discarded. -/
def toDateValue (v : Value) : Value :=
  match v with
  | .str s =>
    match castStringToLong s with
    | some t =>
      match civilFromDays (Int.fdiv t 86400) with
      | (y, m, d) => .date y m d
    | none => .null
  | _ => .null

/-! ## Extraction (`extract_data`) -/

/-- PERMISSIVE CSV row shaping: a data row is padded with NULL cells to the
header width and extra cells beyond it are dropped; present cells stay text. -/
def normalizeRow (n : Nat) (cells : List String) : List Value :=
  (List.range n).map fun i =>
    match cells.get? i with
    | some s => Value.str s
    | none => Value.null

/-- `extract_data(spark, input_file)`: `spark.read.csv(input_file,
header=True, inferSchema=False)`.  An unreadable file or an empty file makes
the read raise (re-raised by the function); otherwise the first line becomes
the header — the header's names are NOT validated — and every field is
returned as text. -/
def extract_data (file : Option (List (List String))) : Except EtlError DataFrame :=
  match file with
  | none => .error .extractionError
  | some [] => .error .extractionError
  | some (hdr :: data) => .ok ⟨hdr, data.map (normalizeRow hdr.length)⟩

/-! ## Transformation (`transform_data`) -/

/-- Resolve `col(name)` against a row: the cell at the column's index, NULL
if the row is short. -/
def getCell (hdr : List String) (name : String) (r : List Value) : Value :=
  match hdr.indexOf? name with
  | some i => (r.get? i).getD Value.null
  | none => Value.null

/-- The Validator stage: `df.filter(col("email").rlike(...))` — keep exactly
the rows whose email cell matches the shape regex. -/
def validate (hdr : List String) (rows : List (List Value)) : List (List Value) :=
  rows.filter fun r => valueRlike (getCell hdr "email" r)

/-- `df.withColumn(name, f)`: replace the column if the name exists,
otherwise append it. -/
def withColumn (df : DataFrame) (name : String) (f : List Value → Value) : DataFrame :=
  match df.header.indexOf? name with
  | some i => ⟨df.header, df.rows.map fun r => r.set i (f r)⟩
  | none => ⟨df.header ++ [name], df.rows.map fun r => r ++ [f r]⟩

/-- `transform_data(df)`: filter on the email regex, re-derive
`signup_date` as a calendar date, derive `domain`, cast `user_id` to int.
Referencing a column that does not exist raises an `AnalysisException`
(eager analysis at each transformation call), re-raised by the function;
the checks below mirror the columns referenced, in evaluation order. -/
def transform_data (df : DataFrame) : Except EtlError DataFrame :=
  if df.header.contains "email" = false then .error .transformationError
  else if df.header.contains "signup_date" = false then .error .transformationError
  else if df.header.contains "user_id" = false then .error .transformationError
  else
    let df1 : DataFrame := ⟨df.header, validate df.header df.rows⟩
    let df2 := withColumn df1 "signup_date" fun r => toDateValue (getCell df1.header "signup_date" r)
    let df3 := withColumn df2 "domain" fun r => domainValue (getCell df2.header "email" r)
    let df4 := withColumn df3 "user_id" fun r => castIntValue (getCell df3.header "user_id" r)
    .ok df4

/-! ## Load (`load_data_to_postgresql`) and orchestration (`etl_pipeline`) -/

/-- `load_data_to_postgresql(df, ...)`: a JDBC write in `append` mode — the
new rows are added after the destination table's existing rows, which are
never modified or removed; a destination failure raises (`destOk = false`). -/
def load_data_to_postgresql (rows : List (List Value)) (table : List (List Value))
    (destOk : Bool) : Except EtlError (List (List Value)) :=
  if destOk then .ok (table ++ rows) else .error .loadError

/-- Observable outcome of one `etl_pipeline` run: the destination table
afterwards, whether the load stage was invoked, whether `spark.stop()` was
reached, and the error (if any) that propagated out. -/
structure PipelineResult where
  table : List (List Value)
  loadInvoked : Bool
  sparkStopped : Bool
  error : Option EtlError
deriving DecidableEq, Repr

/-- `etl_pipeline(input_file, ...)`: extract, transform, load in sequence.
An exception at any stage propagates immediately, skipping the remaining
stages; `spark.stop()` is the last statement and is reached only when all
three stages succeeded (there is no `try`/`finally`). -/
def etl_pipeline (destOk : Bool) (file : Option (List (List String)))
    (table : List (List Value)) : PipelineResult :=
  match extract_data file with
  | .error e => ⟨table, false, false, some e⟩
  | .ok df =>
    match transform_data df with
    | .error e => ⟨table, false, false, some e⟩
    | .ok df2 =>
      match load_data_to_postgresql df2.rows table destOk with
      | .error e => ⟨table, true, false, some e⟩
      | .ok table2 => ⟨table2, true, true, none⟩

/-- Observable outcome of the `__main__` block: the process exit code and
the terminal `logger.error("ETL process failed: {e}")` diagnostic, carrying
the error it reports (or `none` on success). -/
structure MainResult where
  exitCode : Nat
  terminalDiagnostic : Option EtlError
deriving DecidableEq, Repr

/-- The `__main__` block around `etl_pipeline`: `try: etl_pipeline(...)
except Exception as e: logger.error(f"ETL process failed: {e}")` — the
exception is caught, logged and NOT re-raised, and the script then falls off
the end, so the interpreter exits with status 0 in both cases. -/
def main_run (destOk : Bool) (file : Option (List (List String)))
    (table : List (List Value)) : MainResult :=
  match (etl_pipeline destOk file table).error with
  | some e => ⟨0, some e⟩
  | none => ⟨0, none⟩

/-! ## The generator utility (`generate_user_data.py`, `write_to_csv`) -/

/-- Errors of the generator's write loop; only `ZeroDivisionError` is
relevant (it is raised by `%` with a zero right operand and is caught by
neither of `write_to_csv`'s `except` clauses). -/
inductive GenError where
  | zeroDivisionError
deriving DecidableEq, Repr

/-- Python `%` on naturals: raises `ZeroDivisionError` when the divisor is
zero, otherwise the remainder. -/
def pymod (a b : Nat) : Except GenError Nat :=
  if b = 0 then .error .zeroDivisionError else .ok (a % b)

/-- The header row written first by `write_to_csv`. -/
def csvHeader : List String :=
  ["user_id", "name", "email", "signup_date"]

/-- One iteration of `write_to_csv`'s loop over `user_id`.  State: the lines
written to the file so far, and the pending exception if one was raised (an
exception aborts the loop; the `with` block still flushes what was written).
When tqdm is absent the progress check evaluates `user_id %
progress_threshold` before the record is generated and written. -/
def writeStep (gen : Nat → List String) (useTqdm : Bool) (threshold : Nat)
    (st : List (List String) × Option GenError) (uid : Nat) :
    List (List String) × Option GenError :=
  match st with
  | (acc, some e) => (acc, some e)
  | (acc, none) =>
    if useTqdm then (acc ++ [toString uid :: gen uid], none)
    else
      match pymod uid threshold with
      | .error e => (acc, some e)
      | .ok _ => (acc ++ [toString uid :: gen uid], none)

/-- `write_to_csv(csv_filename, num_records, fake, ...)`: write the header,
compute `progress_threshold = num_records // 10` when tqdm is unavailable,
then loop `user_id` over `range(1, num_records + 1)` writing one generated
record per iteration.  `gen uid` stands for the faker-produced
`(name, email, signup_date)` fields of record `uid`.  Returns the file's
final content and the exception (if any) that escaped the loop. -/
def write_to_csv (gen : Nat → List String) (num_records : Nat) (useTqdm : Bool) :
    List (List String) × Option GenError :=
  let threshold := num_records / 10
  (List.range' 1 num_records).foldl (writeStep gen useTqdm threshold) ([csvHeader], none)

/-! ## Concrete inputs used by the scenario claims -/

/-- The standard input header. -/
def stdHeader : List String :=
  ["user_id", "name", "email", "signup_date"]

/-- The transformed header: the `domain` column is appended. -/
def tHeader : List String :=
  stdHeader ++ ["domain"]

/-- The row-level predicate of the Validator stage on the standard schema:
the email cell (index 2) matches the shape regex. -/
def keepRow (r : List Value) : Bool :=
  valueRlike (getCell stdHeader "email" r)

/-- The row-level effect of `transform_data` on a validated standard-schema
row: `user_id` cast to int, `name` and `email` unchanged, `signup_date`
converted to a date, `domain` appended. -/
def tRow (r : List Value) : List Value :=
  [castIntValue ((r.get? 0).getD Value.null),
   (r.get? 1).getD Value.null,
   (r.get? 2).getD Value.null,
   toDateValue ((r.get? 3).getD Value.null),
   domainValue ((r.get? 2).getD Value.null)]

/-- The spec's end-to-end scenario file: five data rows, rows 2 and 4 with
malformed emails. -/
def inputFile5 : List (List String) :=
  [["user_id", "name", "email", "signup_date"],
   ["1", "Alice", "alice@example.com", "1700000000"],
   ["2", "Bob", "bob-at-example.com", "1700000000"],
   ["3", "Carol", "carol@test.org", "1700000000"],
   ["4", "Dave", "dave@nodot", "1700000000"],
   ["5", "Eve", "eve@mail.co", "1700000000"]]

/-- A file whose single record has a non-integer `user_id` but a valid
email. -/
def inputFileAbc : List (List String) :=
  [["user_id", "name", "email", "signup_date"],
   ["abc", "Bob", "x@y.z", "1700000000"]]

/-! ## Helper lemmas -/

/-- A list of length four is literally a four-element list. -/
theorem length_four_eq {α : Type} (r : List α) (h : r.length = 4) :
    ∃ a b c d, r = [a, b, c, d] := by
  cases r with
  | nil => simp at h
  | cons a r1 =>
    cases r1 with
    | nil => simp at h
    | cons b r2 =>
      cases r2 with
      | nil => simp at h
      | cons c r3 =>
        cases r3 with
        | nil => simp at h
        | cons d r4 =>
          cases r4 with
          | nil => exact ⟨a, b, c, d, rfl⟩
          | cons e r5 => simp at h

/-- On the standard schema, `transform_data` is the email filter followed by
the per-row field transforms, with `domain` appended. -/
theorem transform_data_std (rows : List (List Value)) (h : ∀ r ∈ rows, r.length = 4) :
    transform_data ⟨stdHeader, rows⟩ =
      Except.ok ⟨tHeader, (rows.filter keepRow).map tRow⟩ := by
  have h1 : transform_data ⟨stdHeader, rows⟩ =
      Except.ok ⟨tHeader,
        (((rows.filter keepRow).map fun r =>
              r.set 3 (toDateValue ((r.get? 3).getD Value.null))).map fun r =>
            r ++ [domainValue ((r.get? 2).getD Value.null)]).map fun r =>
          r.set 0 (castIntValue ((r.get? 0).getD Value.null))⟩ := rfl
  rw [h1, List.map_map, List.map_map]
  refine congrArg Except.ok (congrArg (DataFrame.mk tHeader) (List.map_congr_left ?_))
  intro r hr
  obtain ⟨a, b, c, d, rfl⟩ := length_four_eq r (h r (List.mem_of_mem_filter hr))
  rfl

/-- Scanning for the domain pattern steps over a non-`@` character. -/
theorem regexpExtractDomain_cons_ne (c : Char) (rest : List Char) (h : ¬c = '@') :
    regexpExtractDomain (c :: rest) = regexpExtractDomain rest := by
  simp only [regexpExtractDomain, if_neg h]

/-- An exception raised inside the generator's loop aborts the remaining
iterations, leaving the file content as already written. -/
theorem foldl_writeStep_error (gen : Nat → List String) (useTqdm : Bool) (threshold : Nat)
    (l : List Nat) (acc : List (List String)) (e : GenError) :
    l.foldl (writeStep gen useTqdm threshold) (acc, some e) = (acc, some e) := by
  induction l with
  | nil => rfl
  | cons x xs ih => rw [List.foldl_cons]; exact ih

/-! ## C3: the Validator keeps exactly the regex-matching records -/

/-- C3 (confirmed): a record is in the Validator's output iff it is an input
record whose email cell matches the shape regex; the filter never raises —
on the standard schema `transform_data` succeeds on any row set — and a set
whose records all satisfy the predicate passes through unchanged. -/
theorem validator_filter_confirmed :
    (∀ (hdr : List String) (rows : List (List Value)) (r : List Value),
        r ∈ validate hdr rows ↔ r ∈ rows ∧ valueRlike (getCell hdr "email" r) = true) ∧
    (∀ rows : List (List Value), ∃ out, transform_data ⟨stdHeader, rows⟩ = Except.ok out) ∧
    (∀ (hdr : List String) (rows : List (List Value)),
        (∀ r ∈ rows, valueRlike (getCell hdr "email" r) = true) → validate hdr rows = rows) := by
  refine ⟨?_, ?_, ?_⟩
  · intro hdr rows r
    exact List.mem_filter
  · intro rows
    exact ⟨_, rfl⟩
  · intro hdr rows h
    exact List.filter_eq_self.mpr h

/-- Witness for C3 at a concrete one-record set with a conforming email. -/
theorem validator_filter_witness :
    validate stdHeader [[Value.str "1", Value.str "A", Value.str "a@b.c", Value.str "0"]] =
      [[Value.str "1", Value.str "A", Value.str "a@b.c", Value.str "0"]] :=
  validator_filter_confirmed.2.2 stdHeader _ (by decide)

/-! ## C5: `signup_date = 1700000000` becomes the calendar date 2023-11-14 -/

/-- C5 (confirmed): the date-conversion routine sends epoch seconds
`"1700000000"` to the civil date 2023-11-14 (UTC, day truncated), and every
validated standard-schema record carrying that `signup_date` appears in the
Transformer's output with exactly that date in its `signup_date` cell. -/
theorem signup_date_conversion_confirmed :
    toDateValue (Value.str "1700000000") = Value.date 2023 11 14 ∧
    ∀ rows : List (List Value), (∀ r ∈ rows, r.length = 4) →
      ∀ out, transform_data ⟨stdHeader, rows⟩ = Except.ok out →
        ∀ r ∈ rows, keepRow r = true → r.get? 3 = some (Value.str "1700000000") →
          tRow r ∈ out.rows ∧ (tRow r).get? 3 = some (Value.date 2023 11 14) := by
  constructor
  · decide
  · intro rows h out hout r hr hk h3
    rw [transform_data_std rows h] at hout
    cases hout
    constructor
    · exact List.mem_map_of_mem _ (List.mem_filter.mpr ⟨hr, hk⟩)
    · show some (toDateValue ((r.get? 3).getD Value.null)) = _
      rw [h3]
      decide

/-- Witness for C5 at a concrete validated record. -/
theorem signup_date_conversion_witness :
    tRow [Value.str "7", Value.str "G", Value.str "g@h.i", Value.str "1700000000"] ∈
      (DataFrame.mk tHeader
        (([[Value.str "7", Value.str "G", Value.str "g@h.i", Value.str "1700000000"]].filter
            keepRow).map tRow)).rows ∧
    (tRow [Value.str "7", Value.str "G", Value.str "g@h.i", Value.str "1700000000"]).get? 3 =
      some (Value.date 2023 11 14) :=
  signup_date_conversion_confirmed.2
    [[Value.str "7", Value.str "G", Value.str "g@h.i", Value.str "1700000000"]] (by decide)
    _ rfl _ (by decide) (by decide) (by decide)

/-! ## C6: an unreadable input causes zero writes and a surfaced error -/

/-- C6 (confirmed): with an unreadable input file the run surfaces an
`ExtractionError`, the load stage is never invoked, and the destination
table is left exactly as it was. -/
theorem extraction_failure_no_writes (destOk : Bool) (table : List (List Value)) :
    (etl_pipeline destOk none table).error = some EtlError.extractionError ∧
    (etl_pipeline destOk none table).loadInvoked = false ∧
    (etl_pipeline destOk none table).table = table :=
  ⟨rfl, rfl, rfl⟩

/-! ## C1: `user_id` coercion -/

/-- C1 counterexample: a validated record whose `user_id` is `"abc"` does
NOT trigger a transformation error — the run succeeds and the row IS
written, with a NULL `user_id` (Spark's non-ANSI `cast("int")` yields NULL
on a malformed string instead of raising). -/
theorem user_id_cast_counterexample :
    (etl_pipeline true (some inputFileAbc) []).error = none ∧
    (etl_pipeline true (some inputFileAbc) []).table =
      [[Value.null, Value.str "Bob", Value.str "x@y.z", Value.date 2023 11 14,
        Value.str "y.z"]] := by
  decide

/-- C1 (amended): the Transformer casts `user_id` with Spark's nullable
`cast("int")`: input `"42"` yields integer `42`, while a value that is not
an integer literal (e.g. `"abc"`) yields NULL for that record's `user_id`;
no error is raised and the record is still transformed (and later written)
with the NULL `user_id`. -/
theorem user_id_cast_amended :
    castIntValue (Value.str "42") = Value.int 42 ∧
    castIntValue (Value.str "abc") = Value.null ∧
    ∀ rows : List (List Value), (∀ r ∈ rows, r.length = 4) →
      transform_data ⟨stdHeader, rows⟩ =
        Except.ok ⟨tHeader, (rows.filter keepRow).map tRow⟩ ∧
      ∀ r ∈ rows, keepRow r = true →
        (tRow r).get? 0 = some (castIntValue ((r.get? 0).getD Value.null)) := by
  refine ⟨by decide, by decide, ?_⟩
  intro rows h
  refine ⟨transform_data_std rows h, ?_⟩
  intro r hr hk
  rfl

/-- Witness for C1 (amended) at the concrete `"abc"` record. -/
theorem user_id_cast_amended_witness :
    transform_data ⟨stdHeader,
        [[Value.str "abc", Value.str "Bob", Value.str "x@y.z", Value.str "1700000000"]]⟩ =
      Except.ok ⟨tHeader,
        ([[Value.str "abc", Value.str "Bob", Value.str "x@y.z",
            Value.str "1700000000"]].filter keepRow).map tRow⟩ :=
  (user_id_cast_amended.2.2
    [[Value.str "abc", Value.str "Bob", Value.str "x@y.z", Value.str "1700000000"]]
    (by decide)).1

/-! ## C2: extraction and the header check -/

/-- C2 counterexample: a readable, non-empty file whose header declares an
EXTRA column extracts successfully — `extract_data` performs no header
validation at all, so a header mismatch is not an extraction error. -/
theorem extraction_header_counterexample :
    extract_data (some [["user_id", "name", "email", "signup_date", "extra"],
        ["1", "A", "a@b.c", "0", "x"]]) =
      Except.ok ⟨["user_id", "name", "email", "signup_date", "extra"],
        [[Value.str "1", Value.str "A", Value.str "a@b.c", Value.str "0",
          Value.str "x"]]⟩ := rfl

/-- C2 (amended): extraction signals an `ExtractionError` iff the file is
unreadable or empty; the header row's names are NOT validated — whatever
first line is present becomes the schema — and every field of every data
row is returned as text (no type inference). -/
theorem extraction_error_amended :
    (∀ file : Option (List (List String)),
        (∃ e, extract_data file = Except.error e) ↔ file = none ∨ file = some []) ∧
    ∀ (hdr : List String) (data : List (List String)),
      extract_data (some (hdr :: data)) =
        Except.ok ⟨hdr, data.map (normalizeRow hdr.length)⟩ := by
  constructor
  · intro file
    match file with
    | none => exact ⟨fun _ => Or.inl rfl, fun _ => ⟨.extractionError, rfl⟩⟩
    | some [] => exact ⟨fun _ => Or.inr rfl, fun _ => ⟨.extractionError, rfl⟩⟩
    | some (hdr :: data) =>
      constructor
      · rintro ⟨e, he⟩
        simp [extract_data] at he
      · rintro (h | h) <;> simp at h
  · intro hdr data
    rfl

/-- Witness for C2 (amended) at the unreadable-file input. -/
theorem extraction_error_amended_witness :
    ∃ e, extract_data none = Except.error e :=
  (extraction_error_amended.1 none).mpr (Or.inl rfl)

/-! ## C4: domain derivation -/

/-- C4 (confirmed): every record output by the Transformer on the standard
schema carries, in the appended `domain` column, exactly the group captured
by `@([A-Za-z0-9.-]+)` on its email; when everything after the (first) `@`
consists of class characters that capture is precisely the substring
following the `@`, and `"alice@sub.example.com"` yields
`"sub.example.com"`. -/
theorem domain_extraction_confirmed :
    (∀ rows : List (List Value), (∀ r ∈ rows, r.length = 4) →
        ∀ out, transform_data ⟨stdHeader, rows⟩ = Except.ok out →
          ∀ r ∈ out.rows, r.get? 4 = some (domainValue ((r.get? 2).getD Value.null))) ∧
    String.mk (regexpExtractDomain "alice@sub.example.com".toList) = "sub.example.com" ∧
    (∀ a b : List Char, (∀ c ∈ a, c ≠ '@') → b ≠ [] → (∀ c ∈ b, isDomainChar c = true) →
        regexpExtractDomain (a ++ '@' :: b) = b) := by
  refine ⟨?_, by decide, ?_⟩
  · intro rows h out hout r hr
    rw [transform_data_std rows h] at hout
    cases hout
    obtain ⟨r0, hr0, rfl⟩ := List.mem_map.mp hr
    rfl
  · intro a b ha hb hball
    induction a with
    | nil =>
      simp only [List.nil_append]
      cases b with
      | nil => exact absurd rfl hb
      | cons d rest =>
        simp only [regexpExtractDomain, if_pos rfl,
          if_pos (hball d (List.mem_cons_self d rest))]
        exact congrArg (d :: ·)
          (List.takeWhile_eq_self_iff.mpr fun x hx => hball x (List.mem_cons_of_mem d hx))
    | cons x a ih =>
      rw [List.cons_append,
        regexpExtractDomain_cons_ne x _ (ha x (List.mem_cons_self x a))]
      exact ih fun c hc => ha c (List.mem_cons_of_mem x hc)

/-- Witness for C4 at a concrete email shape. -/
theorem domain_extraction_witness :
    regexpExtractDomain ("x".toList ++ '@' :: "ab.cd".toList) = "ab.cd".toList :=
  domain_extraction_confirmed.2.2 "x".toList "ab.cd".toList (by decide) (by decide)
    (by decide)

/-! ## C7: append semantics and the 5-row scenario -/

/-- C7 (confirmed): the Sink Writer appends the transformed rows after the
destination table's existing rows — every pre-existing row keeps its
position and value — and on the spec's 5-row input (rows 2 and 4 with
malformed emails) one run leaves 3 rows and a second identical run leaves
6, with no error. -/
theorem append_semantics_confirmed :
    (∀ rows table : List (List Value),
        load_data_to_postgresql rows table true = Except.ok (table ++ rows)) ∧
    (∀ (rows table : List (List Value)) (i : Nat), i < table.length →
        (table ++ rows).get? i = table.get? i) ∧
    (etl_pipeline true (some inputFile5) []).table.length = 3 ∧
    (etl_pipeline true (some inputFile5)
        ((etl_pipeline true (some inputFile5) []).table)).table.length = 6 ∧
    (etl_pipeline true (some inputFile5) []).error = none := by
  refine ⟨fun rows table => rfl, ?_, by decide, by decide, by decide⟩
  intro rows table i h
  simp [List.get?_eq_getElem?, List.getElem?_append_left h]

/-- Witness for C7's frame property at a concrete table and index. -/
theorem append_semantics_witness :
    (([[Value.int 1]] : List (List Value)) ++ []).get? 0 =
      ([[Value.int 1]] : List (List Value)).get? 0 :=
  append_semantics_confirmed.2.1 [] [[Value.int 1]] 0 (by decide)

/-! ## C8: terminal diagnostic and exit status -/

/-- C8 counterexample: a run that fails (unreadable input, an
`ExtractionError` propagates) still ends with process exit status 0 — the
`__main__` block catches the exception, logs it, and never re-raises or
sets a non-zero exit code. -/
theorem failed_run_exit_counterexample :
    (etl_pipeline true none []).error = some EtlError.extractionError ∧
    (main_run true none []).exitCode = 0 := by
  decide

/-- C8 (amended): every failed run ends with the single terminal
`"ETL process failed: ..."` diagnostic carrying the stage error, but the
process completes with a ZERO exit status — the caught exception is not
re-raised and no non-zero completion status is signalled to the caller. -/
theorem failed_run_exit_amended :
    ∀ (destOk : Bool) (file : Option (List (List String))) (table : List (List Value))
      (e : EtlError), (etl_pipeline destOk file table).error = some e →
      main_run destOk file table = ⟨0, some e⟩ := by
  intro destOk file table e he
  unfold main_run
  rw [he]

/-- Witness for C8 (amended) at the unreadable-file run. -/
theorem failed_run_exit_amended_witness :
    main_run true none [] = ⟨0, some EtlError.extractionError⟩ :=
  failed_run_exit_amended true none [] EtlError.extractionError rfl

/-! ## C9: resource cleanup on failure -/

/-- C9 counterexample: a failing run (unreadable input) terminates with the
Spark session still held — `spark.stop()` is the last statement of
`etl_pipeline` with no `try`/`finally`, so it is never reached when a stage
raises. -/
theorem cleanup_counterexample :
    ((etl_pipeline true none []).error).isSome = true ∧
    (etl_pipeline true none []).sparkStopped = false := by
  decide

/-- C9 (amended): there is no guaranteed cleanup — whenever any stage fails
the run terminates WITHOUT stopping the Spark session, whichever stage
failed; the session is stopped exactly on successful completion. -/
theorem cleanup_amended :
    ∀ (destOk : Bool) (file : Option (List (List String))) (table : List (List Value)),
      ((etl_pipeline destOk file table).error.isSome = true →
        (etl_pipeline destOk file table).sparkStopped = false) ∧
      ((etl_pipeline destOk file table).error = none →
        (etl_pipeline destOk file table).sparkStopped = true) := by
  intro destOk file table
  rcases hx : extract_data file with e | df
  · refine ⟨fun _ => ?_, fun h => ?_⟩
    · simp [etl_pipeline, hx]
    · simp [etl_pipeline, hx] at h
  · rcases ht : transform_data df with e | df2
    · refine ⟨fun _ => ?_, fun h => ?_⟩
      · simp [etl_pipeline, hx, ht]
      · simp [etl_pipeline, hx, ht] at h
    · rcases hl : load_data_to_postgresql df2.rows table destOk with e | t2
      · refine ⟨fun _ => ?_, fun h => ?_⟩
        · simp [etl_pipeline, hx, ht, hl]
        · simp [etl_pipeline, hx, ht, hl] at h
      · refine ⟨fun h => ?_, fun _ => ?_⟩
        · simp [etl_pipeline, hx, ht, hl] at h
        · simp [etl_pipeline, hx, ht, hl]

/-- Witness for C9 (amended) at the unreadable-file run. -/
theorem cleanup_amended_witness :
    (etl_pipeline true none []).sparkStopped = false :=
  (cleanup_amended true none []).1 rfl

/-! ## C10: the generator's zero progress threshold -/

/-- C10 (confirmed): for any record count `n` with `1 ≤ n < 10` and tqdm
unavailable, `write_to_csv` computes `progress_threshold = n // 10 = 0`, the
first loop iteration's `user_id % progress_threshold` raises
`ZeroDivisionError`, and the file is left holding only the header row —
none of the `n` records is written, for any generated record data. -/
theorem generator_zero_division_confirmed :
    ∀ (gen : Nat → List String) (n : Nat), 1 ≤ n → n < 10 →
      n / 10 = 0 ∧
      write_to_csv gen n false = ([csvHeader], some GenError.zeroDivisionError) := by
  intro gen n h1 h2
  have ht : n / 10 = 0 := Nat.div_eq_of_lt h2
  refine ⟨ht, ?_⟩
  obtain ⟨m, rfl⟩ : ∃ m, n = m + 1 := ⟨n - 1, by omega⟩
  show (List.range' 1 (m + 1)).foldl (writeStep gen false ((m + 1) / 10))
      ([csvHeader], none) = _
  rw [ht]
  have hr : List.range' 1 (m + 1) = 1 :: List.range' 2 m := rfl
  rw [hr, List.foldl_cons]
  exact foldl_writeStep_error gen false 0 (List.range' 2 m) [csvHeader]
    GenError.zeroDivisionError

/-- Witness for C10 at `n = 5` with a fixed record generator. -/
theorem generator_zero_division_witness :
    5 / 10 = 0 ∧
    write_to_csv (fun _ => ["n", "e", "s"]) 5 false =
      ([csvHeader], some GenError.zeroDivisionError) :=
  generator_zero_division_confirmed (fun _ => ["n", "e", "s"]) 5 (by decide) (by decide)

end ETL
